import Mathlib

/-
Shallow embedding of `src/allergen_detector.py` (openkickstartai/ai).

The Python program scans free-form ingredient text for allergens:
`IngredientProcessor` tokenizes the text, `AllergenDatabase` answers
SQL-LIKE substring queries over a fixed seeded table, `RiskAssessor`
combines per-user severities with intrinsic severities, and
`AllergenDetector` orchestrates a scan into a `DetectionResult`.

Modelling conventions:
* Python strings are Lean `String` / `List Char`; the ASCII fragment of
  Python's `str.lower`, `str.strip` and of the regex classes `\s`, `\d`
  is modelled (`Char.toLower` in Lean lowercases exactly ASCII letters,
  which also matches SQLite's `LOWER`).
* Python floats are modelled exactly by rationals (the program only ever
  adds, multiplies and compares the constants 0.0/0.4/0.5/0.6/0.8/1.0
  and a quotient of small integer counts).
* The SQLite table is the seed list in insertion (rowid) order; the
  `LIKE '%token%'` test is implemented by a faithful LIKE matcher in
  which `%` and `_` occurring inside the token act as wildcards.
* `re.sub(pat, "", s)` loops are modelled by left-to-right scans that
  remove each non-overlapping match; a fuel argument (the text length)
  makes them structurally recursive, and is sufficient because every
  pattern consumes at least one character when it matches.
-/

set_option maxRecDepth 16384

/-- ASCII whitespace, the fragment of Python's `\s` / `str.strip` class
exercised by the program. -/
def isPySpace (c : Char) : Bool :=
  c = ' ' || c = '\t' || c = '\n' || c = '\r' || c = '\x0b' || c = '\x0c'

/-- Python `str.strip`: drop whitespace from both ends. -/
def stripChars (l : List Char) : List Char :=
  ((l.dropWhile isPySpace).reverse.dropWhile isPySpace).reverse

/-- Lowercased character list of a string, modelling both Python
`str.lower` and SQLite `LOWER` on the ASCII fragment. -/
def lowerL (s : String) : List Char :=
  s.toList.map Char.toLower

/-- Embedding of `re.sub(r"\s+", " ", text)`: every maximal whitespace
run becomes a single space.  The flag records whether the previous
character belonged to a run that has already emitted its space. -/
def collapseWsGo : Bool → List Char → List Char
  | _, [] => []
  | prevSpace, c :: cs =>
    if isPySpace c then
      if prevSpace then collapseWsGo true cs
      else ' ' :: collapseWsGo true cs
    else c :: collapseWsGo false cs

/-- Case-insensitive literal match (regex `re.IGNORECASE` on ASCII):
returns the remainder of the input after the literal. -/
def matchLitCI : List Char → List Char → Option (List Char)
  | [], l => some l
  | _ :: _, [] => none
  | p :: ps, c :: cs => if p.toLower = c.toLower then matchLitCI ps cs else none

/-- Optional `s?` (case-insensitive) after a literal. -/
def matchOptS : List Char → List Char
  | 's' :: r => r
  | 'S' :: r => r
  | r => r

/-- The character class `[:：]` (ASCII or full-width colon). -/
def matchColon : List Char → Option (List Char)
  | c :: cs => if c = ':' || c = '：' then some cs else none
  | [] => none

/-- Head match of the regex `ingredients?[:：]\s*`. -/
def matchIngredientsPat (l : List Char) : Option (List Char) :=
  match matchLitCI "ingredient".toList l with
  | none => none
  | some r =>
    match matchColon (matchOptS r) with
    | none => none
    | some r2 => some (r2.dropWhile isPySpace)

/-- Head match of the regex `contains?[:：]\s*`. -/
def matchContainsPat (l : List Char) : Option (List Char) :=
  match matchLitCI "contain".toList l with
  | none => none
  | some r =>
    match matchColon (matchOptS r) with
    | none => none
    | some r2 => some (r2.dropWhile isPySpace)

/-- Head match of the regex `may contain[:：]\s*`. -/
def matchMayContainPat (l : List Char) : Option (List Char) :=
  match matchLitCI "may contain".toList l with
  | none => none
  | some r =>
    match matchColon r with
    | none => none
    | some r2 => some (r2.dropWhile isPySpace)

/-- Left-to-right removal of every non-overlapping match of a pattern,
as `re.sub(pat, "", s)` performs it.  The fuel is decremented once per
step; since each successful match consumes at least one character,
fuel equal to the input length never runs out. -/
def subAll (m : List Char → Option (List Char)) : Nat → List Char → List Char
  | 0, l => l
  | _ + 1, [] => []
  | fuel + 1, c :: cs =>
    match m (c :: cs) with
    | some rest => subAll m fuel rest
    | none => c :: subAll m fuel cs

/-- Run `subAll` with adequate fuel. -/
def subAllF (m : List Char → Option (List Char)) (l : List Char) : List Char :=
  subAll m l.length l

/-- Embedding of `IngredientProcessor._clean_text`: collapse whitespace,
remove the three boilerplate patterns in source order, and strip. -/
def cleanTextL (l : List Char) : List Char :=
  stripChars (subAllF matchMayContainPat
    (subAllF matchContainsPat
      (subAllF matchIngredientsPat (collapseWsGo false l))))

/-- The separator class `[,，;；、\n]` of `IngredientProcessor.separators`. -/
def isSep (c : Char) : Bool :=
  c = ',' || c = '，' || c = ';' || c = '；' || c = '、' || c = '\n'

/-- Embedding of `re.split(r"[,，;；、\n]\s*", text)`.  The flag records
that a separator was just consumed, so following whitespace belongs to
the separator match (`\s*`, greedy) and is discarded. -/
def splitSepsGo : Bool → List Char → List (List Char)
  | _, [] => [[]]
  | skip, c :: cs =>
    if skip && isPySpace c then splitSepsGo true cs
    else if isSep c then [] :: splitSepsGo true cs
    else
      match splitSepsGo false cs with
      | [] => [[c]]
      | t :: ts => (c :: t) :: ts

/-- Embedding of `re.sub(r"\d+%?", "", s)`: digit runs are removed, and
a `%` directly after a digit run is removed with it.  The flag records
that the previous character was a removed digit. -/
def rdGo : Bool → List Char → List Char
  | _, [] => []
  | afterDigit, c :: cs =>
    if c.isDigit then rdGo true cs
    else if afterDigit && c = '%' then rdGo false cs
    else c :: rdGo false cs

/-- Embedding of `re.sub(r"\([^)]*\)", "", s)`: a `(` opens a buffer;
if a `)` arrives before the end the whole group is dropped, otherwise
the regex has no match there and the buffered text is kept verbatim. -/
def rpGo : Option (List Char) → List Char → List Char
  | none, [] => []
  | some buf, [] => buf.reverse
  | none, c :: cs =>
    if c = '(' then rpGo (some [c]) cs else c :: rpGo none cs
  | some buf, c :: cs =>
    if c = ')' then rpGo none cs else rpGo (some (c :: buf)) cs

/-- The stop-word set of `IngredientProcessor.stop_words`. -/
def stop_words : List String :=
  ["ingredients", "成分", "原料", "材料", "contains", "含有",
   "water", "水", "salt", "盐", "sugar", "糖", "oil", "油",
   "natural", "自然", "artificial", "人工", "flavor", "风味",
   "preservative", "防腐剂", "color", "色素", "vitamin", "维生素"]

/-- Python `str.startswith`, case-sensitive. -/
def startsWithL : List Char → List Char → Bool
  | [], _ => true
  | _ :: _, [] => false
  | p :: ps, c :: cs => p = c && startsWithL ps cs

/-- The sequential filler-stripping loop of `_clean_ingredient`
(`prefixes_to_remove = ["contains", "contains*", "may contain", "+"]`,
each strip followed by `str.strip`). -/
def stripFillers (l : List Char) : List Char :=
  let l1 := if startsWithL "contains".toList l then stripChars (l.drop 8) else l
  let l2 := if startsWithL "contains*".toList l1 then stripChars (l1.drop 9) else l1
  let l3 := if startsWithL "may contain".toList l2 then stripChars (l2.drop 11) else l2
  if startsWithL "+".toList l3 then stripChars (l3.drop 1) else l3

/-- Embedding of `IngredientProcessor._clean_ingredient`. -/
def cleanIngredientL (l : List Char) : List Char :=
  let s1 := stripChars (l.map Char.toLower)
  let s2 := rdGo false s1
  let s3 := rpGo none s2
  let s4 := stripFillers s3
  if String.mk s4 ∈ stop_words then [] else s4

/-- Embedding of `IngredientProcessor.extract_ingredients`. -/
def extract_ingredients (text : String) : List String :=
  if text = "" then []
  else
    (splitSepsGo false (cleanTextL text.toList)).filterMap fun tk =>
      let cleaned := cleanIngredientL tk
      if cleaned ≠ [] ∧ 1 < cleaned.length then some (String.mk cleaned) else none

/-- A row of the `allergens` table (columns of the SELECT in
`AllergenDatabase.search_allergens`). -/
structure AllergenRecord where
  name : String
  type : String
  severity : Int
  aliases : String
  languages : String

deriving instance DecidableEq for AllergenRecord

/-- Seed row `("peanuts", ...)` of `_populate_base_data`. -/
def peanutsRow : AllergenRecord :=
  ⟨"peanuts", "peanut", 5, "peanut,groundnut,arachis hypogaea,花生,落花生", "en:peanuts,zh:花生"⟩

/-- Seed row `("milk", ...)` of `_populate_base_data`. -/
def milkRow : AllergenRecord :=
  ⟨"milk", "dairy", 3, "milk,dairy,lactose,casein,奶,牛奶,乳制品", "en:milk,zh:牛乳"⟩

/-- Seed row `("gluten", ...)` of `_populate_base_data`. -/
def glutenRow : AllergenRecord :=
  ⟨"gluten", "gluten", 3, "gluten,wheat,flour,麸质,小麦,面粉", "en:gluten,zh:麸质"⟩

/-- Seed row `("shrimp", ...)` of `_populate_base_data`. -/
def shrimpRow : AllergenRecord :=
  ⟨"shrimp", "shellfish", 5, "shrimp,prawn,crustacean,虾,海鲜", "en:shrimp,zh:虾"⟩

/-- Seed row `("eggs", ...)` of `_populate_base_data`. -/
def eggsRow : AllergenRecord :=
  ⟨"eggs", "egg", 3, "egg,ovalbumin,ovomucoid,蛋,鸡蛋", "en:eggs,zh:鸡蛋"⟩

/-- The idempotently seeded table contents, in rowid (insertion) order. -/
def baseAllergens : List AllergenRecord :=
  [peanutsRow, milkRow, glutenRow, shrimpRow, eggsRow]

/-- All suffixes of a character list, longest first. -/
def tailsL : List Char → List (List Char)
  | [] => [[]]
  | c :: cs => (c :: cs) :: tailsL cs

/-- SQLite `LIKE` evaluation: pattern against field.  `%` matches any
run, `_` any single character, other characters compare ASCII
case-insensitively (SQLite folds ASCII case in LIKE). -/
def likeMatch : List Char → List Char → Bool
  | [] => fun f => f.isEmpty
  | p :: ps =>
    let k := likeMatch ps
    fun f =>
      if p = '%' then (tailsL f).any k
      else
        match f with
        | [] => false
        | c :: fs => (if p = '_' then true else p.toLower == c.toLower) && k fs

/-- The pattern `f"%{ingredient}%"` built by `search_allergens`. -/
def likePat (tok : List Char) : List Char :=
  '%' :: (tok ++ ['%'])

/-- The query token after `ingredient.lower().strip()`. -/
def normTokL (s : String) : List Char :=
  stripChars (s.toList.map Char.toLower)

/-- Embedding of `AllergenDatabase.search_allergens`: rows satisfying
`LOWER(name) LIKE '%tok%' OR LOWER(aliases) LIKE '%tok%'`. -/
def search_allergens (ingredient : String) : List AllergenRecord :=
  let ing := normTokL ingredient
  baseAllergens.filter fun r =>
    likeMatch (likePat ing) (lowerL r.name) || likeMatch (likePat ing) (lowerL r.aliases)

/-- Case-insensitive "is a prefix of" on character lists (specification
side, used to state what `LIKE '%tok%'` computes). -/
def prefCI : List Char → List Char → Bool
  | [], _ => true
  | _ :: _, [] => false
  | p :: ps, c :: cs => (p.toLower == c.toLower) && prefCI ps cs

/-- Case-insensitive "occurs as a substring of" (specification side). -/
def substrCI (t : List Char) : List Char → Bool
  | [] => prefCI t []
  | c :: fs => prefCI t (c :: fs) || substrCI t fs

/-- True when a token contains neither SQL LIKE wildcard. -/
def noWild (l : List Char) : Bool :=
  l.all fun c => !(c == '%' || c == '_')

/-- The risk levels of the `RiskLevel` enum. -/
inductive RiskLevel
  | LOW
  | MODERATE
  | HIGH
  | SEVERE

deriving instance DecidableEq for RiskLevel

/-- The user profile `Dict[str, int]` mapping allergen category to the
personal severity (`RiskAssessor.user_allergens`). -/
abbrev Profile := List (String × Int)

/-- An entry of `detected_allergens` as built by
`AllergenDetector._analyze_ingredients`. -/
structure DetectedAllergen where
  name : String
  type : String
  severity : Int
  matched_ingredient : String

deriving instance DecidableEq for DetectedAllergen

/-- Embedding of `RiskAssessor.assess_risk`.  Note the loop body
assigns `max_risk` outright in each threshold branch (it does not take
a maximum with the previous value). -/
def assess_risk (user_allergens : Profile) (detected : List DetectedAllergen) : RiskLevel :=
  if detected.isEmpty then RiskLevel.LOW
  else
    detected.foldl
      (fun max_risk a =>
        match List.lookup a.type user_allergens with
        | none => max_risk
        | some user_severity =>
          let combined_severity := min (user_severity + a.severity) 10
          if combined_severity ≥ 8 then RiskLevel.SEVERE
          else if combined_severity ≥ 6 then RiskLevel.HIGH
          else if combined_severity ≥ 4 then RiskLevel.MODERATE
          else max_risk)
      RiskLevel.LOW

/-- The severe-tier warning string of `generate_warnings`. -/
def severeMsg (n : String) : String :=
  "⚠️ 严重警告：检测到" ++ n ++ "，可能导致严重过敏反应"

/-- The caution-tier warning string of `generate_warnings`. -/
def cautionMsg (n : String) : String :=
  "🔔 警告：检测到" ++ n ++ "，需谨慎食用"

/-- The mild-tier warning string of `generate_warnings`. -/
def mildMsg (n : String) : String :=
  "💡 提醒：检测到" ++ n ++ "，轻度过敏原"

/-- Embedding of `RiskAssessor.generate_warnings`: the loop appends one
tiered message per detected allergen whose category is in the profile. -/
def generate_warnings (user_allergens : Profile) (detected : List DetectedAllergen) : List String :=
  detected.foldl
    (fun warnings a =>
      match List.lookup a.type user_allergens with
      | none => warnings
      | some user_severity =>
        warnings ++
          [if user_severity ≥ 4 ∧ a.severity ≥ (4 : Int) then severeMsg a.name
           else if user_severity ≥ 3 ∨ a.severity ≥ (3 : Int) then cautionMsg a.name
           else mildMsg a.name])
    []

/-- Specification-side description of the single message `generate_warnings`
emits for a profiled allergen with user severity `u`. -/
def warnMsg (u : Int) (a : DetectedAllergen) : String :=
  if u ≥ 4 ∧ a.severity ≥ (4 : Int) then severeMsg a.name
  else if u ≥ 3 ∨ a.severity ≥ (3 : Int) then cautionMsg a.name
  else mildMsg a.name

/-- The result record `DetectionResult`. -/
structure DetectionResult where
  ingredients : List String
  detected_allergens : List DetectedAllergen
  risk_level : RiskLevel
  confidence : ℚ
  safe : Bool
  warnings : List String

/-- The inner loop body of `_analyze_ingredients`: append a detected
allergen for record `r` unless an entry with the same category exists. -/
def addStep (ingredient : String) (acc : List DetectedAllergen) (r : AllergenRecord) :
    List DetectedAllergen :=
  if acc.any (fun a => a.type == r.type) then acc
  else acc ++ [⟨r.name, r.type, r.severity, ingredient⟩]

/-- Processing of one ingredient token in `_analyze_ingredients`. -/
def addDetected (acc : List DetectedAllergen) (ingredient : String) : List DetectedAllergen :=
  (search_allergens ingredient).foldl (addStep ingredient) acc

/-- Embedding of `AllergenDetector._calculate_confidence`. -/
def calculate_confidence (detected : List DetectedAllergen) (ingredients : List String) : ℚ :=
  if ingredients.isEmpty then 0
  else
    let total : ℚ := ingredients.length
    let matched : ℚ := detected.length
    let confidence : ℚ :=
      if 0 < detected.length then 6/10 + (matched / total) * (4/10)
      else if 5 < ingredients.length then 8/10
      else 5/10
    min confidence 1

/-- Embedding of `AllergenDetector._analyze_ingredients`. -/
def analyze_ingredients (user_allergens : Profile) (ingredients : List String) : DetectionResult :=
  let detected := ingredients.foldl addDetected []
  { ingredients := ingredients
    detected_allergens := detected
    risk_level := assess_risk user_allergens detected
    confidence := calculate_confidence detected ingredients
    safe := assess_risk user_allergens detected == RiskLevel.LOW && detected.isEmpty
    warnings := generate_warnings user_allergens detected }

/-- Embedding of `AllergenDetector.scan_text`. -/
def scan_text (user_allergens : Profile) (text : String) : DetectionResult :=
  analyze_ingredients user_allergens (extract_ingredients text)

/-- The user profile of the spec's worked example (and of `main`). -/
def demoProfile : Profile :=
  [("peanut", 5), ("shellfish", 3), ("dairy", 2)]

/-- The ingredient text of the spec's worked example. -/
def demoText : String :=
  "Ingredients: Wheat flour, sugar, peanuts, milk powder, salt, shrimp powder"

/-- A detected peanuts entry (combined severity 5+5 in `bugProfile`). -/
def peanutDetected : DetectedAllergen :=
  ⟨"peanuts", "peanut", 5, "peanuts"⟩

/-- A detected milk entry (combined severity 2+3 in `bugProfile`). -/
def milkDetected : DetectedAllergen :=
  ⟨"milk", "dairy", 3, "milk"⟩

/-- Profile exhibiting the `assess_risk` overwrite behaviour. -/
def bugProfile : Profile :=
  [("peanut", 5), ("dairy", 2)]

/-- Decompose `noWild` over a cons. -/
theorem noWild_cons {a : Char} {ts : List Char} (h : noWild (a :: ts) = true) :
    a ≠ '%' ∧ a ≠ '_' ∧ noWild ts = true := by
  simp only [noWild, List.all_cons, Bool.and_eq_true, Bool.not_eq_true',
    Bool.or_eq_false_iff, beq_eq_false_iff_ne] at h
  exact ⟨h.1.1, h.1.2, h.2⟩

/-- A bare `%` pattern accepts every field. -/
theorem likeMatch_wild : ∀ f : List Char, likeMatch ['%'] f = true := by
  intro f
  induction f with
  | nil => rfl
  | cons c fs ih =>
    simp only [likeMatch] at ih ⊢
    simpa [tailsL, List.any_cons] using ih

/-- A wildcard-free pattern followed by `%` accepts exactly the fields
it is a (case-insensitive) prefix of. -/
theorem like_tail : ∀ t : List Char, noWild t = true →
    ∀ f, likeMatch (t ++ ['%']) f = prefCI t f := by
  intro t
  induction t with
  | nil =>
    intro _ f
    simpa [prefCI] using likeMatch_wild f
  | cons a ts ih =>
    intro ht f
    obtain ⟨ha1, ha2, ht2⟩ := noWild_cons ht
    cases f with
    | nil => simp [likeMatch, prefCI, ha1]
    | cons c fs =>
      simp only [List.cons_append, likeMatch, prefCI, List.append_eq]
      rw [if_neg ha1, if_neg ha2, ih ht2 fs]

/-- `substrCI` scans exactly the suffixes. -/
theorem substrCI_eq_any : ∀ (t f : List Char), substrCI t f = (tailsL f).any (prefCI t) := by
  intro t f
  induction f with
  | nil => simp [substrCI, tailsL, List.any_cons]
  | cons c fs ih => simp [substrCI, tailsL, List.any_cons, ih]

/-- For a wildcard-free token, the SQL pattern `%token%` tests exactly
case-insensitive substring containment of the token in the field. -/
theorem like_eq {t : List Char} (ht : noWild t = true) (f : List Char) :
    likeMatch (likePat t) f = substrCI t f := by
  have h1 : likeMatch (t ++ ['%']) = prefCI t := funext (like_tail t ht)
  have h2 : likeMatch ('%' :: (t ++ ['%'])) f = (tailsL f).any (likeMatch (t ++ ['%'])) := by
    simp [likeMatch]
  show likeMatch ('%' :: (t ++ ['%'])) f = _
  rw [h2, h1, ← substrCI_eq_any]

/-- Folding a function that never changes its accumulator is the identity. -/
theorem foldl_id {α β : Type} (f : β → α → β) (hf : ∀ b a, f b a = b) :
    ∀ (l : List α) (b : β), List.foldl f b l = b := by
  intro l
  induction l with
  | nil => intro b; rfl
  | cons a l ih =>
    intro b
    rw [List.foldl_cons, hf, ih]

/-- The loop body of `generate_warnings`, named for the proofs. -/
def warnStep (user_allergens : Profile) (warnings : List String) (a : DetectedAllergen) :
    List String :=
  match List.lookup a.type user_allergens with
  | none => warnings
  | some user_severity => warnings ++ [warnMsg user_severity a]

/-- `generate_warnings` is the fold of `warnStep`. -/
theorem generate_warnings_eq_foldl (prof : Profile) (detected : List DetectedAllergen) :
    generate_warnings prof detected = detected.foldl (warnStep prof) [] := rfl

/-- The warnings accumulator only ever grows on the right. -/
theorem foldl_warnStep_append (prof : Profile) :
    ∀ (l : List DetectedAllergen) (init : List String),
      List.foldl (warnStep prof) init l = init ++ List.foldl (warnStep prof) [] l := by
  intro l
  induction l with
  | nil => intro init; simp
  | cons a l ih =>
    intro init
    rw [List.foldl_cons, List.foldl_cons, ih (warnStep prof init a), ih (warnStep prof [] a)]
    have hstep : warnStep prof init a = init ++ warnStep prof [] a := by
      unfold warnStep
      cases List.lookup a.type prof with
      | none => simp
      | some u => simp
    rw [hstep, List.append_assoc]

/-- With an empty profile, `assess_risk` is constantly `LOW`. -/
theorem assess_risk_empty_profile (detected : List DetectedAllergen) :
    assess_risk [] detected = RiskLevel.LOW := by
  unfold assess_risk
  split
  · rfl
  · exact foldl_id _ (fun b a => rfl) detected RiskLevel.LOW

/-- With an empty profile, `generate_warnings` emits nothing. -/
theorem generate_warnings_empty_profile (detected : List DetectedAllergen) :
    generate_warnings [] detected = [] := by
  rw [generate_warnings_eq_foldl]
  exact foldl_id _ (fun b a => rfl) detected []

/-- One `addStep` preserves distinctness of the recorded categories. -/
theorem addStep_nodup (ing : String) (r : AllergenRecord) (acc : List DetectedAllergen)
    (h : (acc.map DetectedAllergen.type).Nodup) :
    ((addStep ing acc r).map DetectedAllergen.type).Nodup := by
  unfold addStep
  split
  · exact h
  · rename_i hany
    simp only [List.any_eq_true, beq_iff_eq, not_exists, not_and] at hany
    have hnotin : r.type ∉ acc.map DetectedAllergen.type := by
      simp only [List.mem_map, not_exists, not_and]
      intro a ha
      exact hany a ha
    rw [List.map_append, List.nodup_append]
    refine ⟨h, by simp, ?_⟩
    simp only [List.map_cons, List.map_nil, List.disjoint_singleton]
    exact hnotin

/-- Processing one token preserves distinctness of categories. -/
theorem addDetected_nodup (ing : String) :
    ∀ (recs : List AllergenRecord) (acc : List DetectedAllergen),
      (acc.map DetectedAllergen.type).Nodup →
      (((recs.foldl (addStep ing) acc)).map DetectedAllergen.type).Nodup := by
  intro recs
  induction recs with
  | nil => intro acc h; exact h
  | cons r recs ih =>
    intro acc h
    rw [List.foldl_cons]
    exact ih _ (addStep_nodup ing r acc h)

/-- The whole detection fold preserves distinctness of categories. -/
theorem detect_fold_nodup :
    ∀ (ings : List String) (acc : List DetectedAllergen),
      (acc.map DetectedAllergen.type).Nodup →
      ((ings.foldl addDetected acc).map DetectedAllergen.type).Nodup := by
  intro ings
  induction ings with
  | nil => intro acc h; exact h
  | cons ing ings ih =>
    intro acc h
    rw [List.foldl_cons]
    exact ih _ (addDetected_nodup ing (search_allergens ing) acc h)

/-- Provenance through one token: every entry either was already there
or comes verbatim from a record returned by the search on this token. -/
theorem addDetected_mem (ing : String) :
    ∀ (recs : List AllergenRecord) (acc : List DetectedAllergen) (a : DetectedAllergen),
      a ∈ recs.foldl (addStep ing) acc →
      a ∈ acc ∨ ∃ r ∈ recs, a = ⟨r.name, r.type, r.severity, ing⟩ := by
  intro recs
  induction recs with
  | nil => intro acc a h; exact Or.inl h
  | cons r recs ih =>
    intro acc a h
    rw [List.foldl_cons] at h
    rcases ih _ a h with h1 | ⟨r2, hr2, he⟩
    · unfold addStep at h1
      split at h1
      · exact Or.inl h1
      · rcases List.mem_append.mp h1 with h2 | h2
        · exact Or.inl h2
        · rw [List.mem_singleton] at h2
          exact Or.inr ⟨r, List.mem_cons_self r recs, h2⟩
    · exact Or.inr ⟨r2, List.mem_cons_of_mem r hr2, he⟩

/-- Provenance through the whole fold: every detected entry comes from a
search on one of the scanned tokens, which it records. -/
theorem detect_fold_mem :
    ∀ (ings : List String) (acc : List DetectedAllergen) (a : DetectedAllergen),
      a ∈ ings.foldl addDetected acc →
      a ∈ acc ∨ ∃ ing ∈ ings, ∃ r ∈ search_allergens ing,
        a = ⟨r.name, r.type, r.severity, ing⟩ := by
  intro ings
  induction ings with
  | nil => intro acc a h; exact Or.inl h
  | cons ing ings ih =>
    intro acc a h
    rw [List.foldl_cons] at h
    rcases ih _ a h with h1 | ⟨ing2, hing2, r, hr, he⟩
    · rcases addDetected_mem ing (search_allergens ing) acc a h1 with h2 | ⟨r, hr, he⟩
      · exact Or.inl h2
      · exact Or.inr ⟨ing, List.mem_cons_self ing ings, r, hr, he⟩
    · exact Or.inr ⟨ing2, List.mem_cons_of_mem ing hing2, r, hr, he⟩

/-- One token only ever appends to the detected list. -/
theorem addDetected_isPre (ing : String) :
    ∀ (recs : List AllergenRecord) (acc : List DetectedAllergen),
      acc <+: recs.foldl (addStep ing) acc := by
  intro recs
  induction recs with
  | nil => intro acc; exact List.prefix_refl acc
  | cons r recs ih =>
    intro acc
    rw [List.foldl_cons]
    have h1 : acc <+: addStep ing acc r := by
      unfold addStep
      split
      · exact List.prefix_refl acc
      · exact List.prefix_append acc _
    exact h1.trans (ih (addStep ing acc r))

/-- The detection fold only ever appends to the detected list. -/
theorem detect_fold_isPre :
    ∀ (ings : List String) (acc : List DetectedAllergen),
      acc <+: ings.foldl addDetected acc := by
  intro ings
  induction ings with
  | nil => intro acc; exact List.prefix_refl acc
  | cons ing ings ih =>
    intro acc
    rw [List.foldl_cons]
    exact (addDetected_isPre ing (search_allergens ing) acc).trans (ih (addDetected acc ing))

/-- Generic: `filterMap` keeps as many elements as `filter isSome`. -/
theorem length_filterMap_eq_length_filter {α β : Type} (f : α → Option β) :
    ∀ l : List α, (l.filterMap f).length = (l.filter (fun a => (f a).isSome)).length := by
  intro l
  induction l with
  | nil => rfl
  | cons a l ih =>
    rw [List.filterMap_cons, List.filter_cons]
    cases h : f a with
    | none => simp [h, ih]
    | some b => simp [h, ih]

/-- `generate_warnings` maps each profiled entry to its one message. -/
theorem generate_warnings_filterMap (prof : Profile) :
    ∀ detected : List DetectedAllergen,
      generate_warnings prof detected =
        detected.filterMap (fun a => (List.lookup a.type prof).map (fun u => warnMsg u a)) := by
  intro detected
  induction detected with
  | nil => rfl
  | cons a l ih =>
    rw [generate_warnings_eq_foldl, List.foldl_cons, foldl_warnStep_append,
      ← generate_warnings_eq_foldl, ih, List.filterMap_cons]
    unfold warnStep
    cases h : List.lookup a.type prof with
    | none => simp [h]
    | some u => simp [h]

/-- A non-empty cleaned token has passed the stop-word check. -/
theorem cleanIngredient_not_stop (l : List Char) (h : cleanIngredientL l ≠ []) :
    String.mk (cleanIngredientL l) ∉ stop_words := by
  simp only [cleanIngredientL] at h ⊢
  by_cases hc :
      String.mk (stripFillers (rpGo none (rdGo false (stripChars (List.map Char.toLower l))))) ∈
        stop_words
  · rw [if_pos hc] at h
    exact absurd rfl h
  · rw [if_neg hc] at h ⊢
    exact hc

/-- C1: evaluation at the failing input for the claim that `assess_risk`
returns the maximum threshold level reached and is never lower than the
level a single profiled allergen alone would yield.  With profile
`bugProfile` the list `[peanutDetected, milkDetected]` assesses to
`MODERATE`, although the peanuts entry alone assesses to `SEVERE` and
the reversed order assesses to `SEVERE`: the loop body overwrites the
level instead of taking a maximum, so the result can be lower than a
single profiled allergen's level and depends on iteration order. -/
theorem assess_risk_overwrite_eval :
    assess_risk bugProfile [peanutDetected, milkDetected] = RiskLevel.MODERATE ∧
    assess_risk bugProfile [peanutDetected] = RiskLevel.SEVERE ∧
    assess_risk bugProfile [milkDetected, peanutDetected] = RiskLevel.SEVERE := by
  decide

/-- C2 counterexample: the token "milk powder" contains the stored name
"milk" of the milk record, so the claimed both-direction match would
return that record; but `search_allergens "milk powder"` is empty,
because the code only tests `stored field LIKE '%token%'`. -/
theorem search_not_both_directions :
    milkRow ∈ baseAllergens ∧
    substrCI (lowerL milkRow.name) (normTokL "milk powder") = true ∧
    search_allergens "milk powder" = [] := by
  decide

/-- C2 (amended): for every query token that is free of SQL wildcards
after the `lower().strip()` normalization, `search_allergens` returns
exactly the seeded records whose lowercased name or lowercased aliases
field contains the normalized token as a substring (one direction
only), and hence the empty list when no record matches. -/
theorem search_allergens_substring_spec (tok : String)
    (hw : noWild (normTokL tok) = true) (r : AllergenRecord) :
    r ∈ search_allergens tok ↔
      r ∈ baseAllergens ∧
        (substrCI (normTokL tok) (lowerL r.name) = true ∨
          substrCI (normTokL tok) (lowerL r.aliases) = true) := by
  unfold search_allergens
  simp only [List.mem_filter, like_eq hw, Bool.or_eq_true]

/-- C2 witness: the amended specification instantiated at the concrete
token "peanuts" and the peanuts record. -/
theorem search_allergens_substring_spec_witness :
    peanutsRow ∈ search_allergens "peanuts" :=
  (search_allergens_substring_spec "peanuts" (by decide) peanutsRow).mpr
    ⟨by decide, Or.inl (by decide)⟩

/-- C3 counterexample: scanning the worked example detects neither the
dairy nor the shellfish category ("milk powder" and "shrimp powder" are
not substrings of any stored field, and the LIKE test goes only in that
direction), contradicting the claimed detected-category list. -/
theorem scan_example_missing_categories :
    ((scan_text demoProfile demoText).detected_allergens.map
        DetectedAllergen.type).contains "dairy" = false ∧
    ((scan_text demoProfile demoText).detected_allergens.map
        DetectedAllergen.type).contains "shellfish" = false := by
  decide

/-- C3 (amended): scanning the worked example yields exactly the tokens
["wheat flour", "peanuts", "milk powder", "shrimp powder"], detects
exactly the peanut category, assesses `SEVERE` risk, is not safe, and
the warnings list is exactly the one severe-tier message naming
"peanuts". -/
theorem scan_example_eval :
    (scan_text demoProfile demoText).ingredients =
      ["wheat flour", "peanuts", "milk powder", "shrimp powder"] ∧
    ((scan_text demoProfile demoText).detected_allergens.map
        DetectedAllergen.type) = ["peanut"] ∧
    (scan_text demoProfile demoText).risk_level = RiskLevel.SEVERE ∧
    (scan_text demoProfile demoText).safe = false ∧
    (scan_text demoProfile demoText).warnings = [severeMsg "peanuts"] := by
  decide

/-- C4 counterexample: scanning empty text yields zero tokens, no
detection and confidence 0 — not the claimed 0.5 of the short-text
no-detection branch (`_calculate_confidence` returns 0.0 before that
branch is reached). -/
theorem scan_empty_text_confidence :
    (scan_text [] "").ingredients = [] ∧
    (scan_text [] "").detected_allergens = [] ∧
    (scan_text [] "").confidence = 0 ∧
    (0 : ℚ) ≠ 1/2 :=
  ⟨rfl, rfl, rfl, by norm_num⟩

/-- C4 (amended): for every scan, the confidence is
`min (0.6 + (detected/tokens)*0.4) 1` when at least one allergen is
detected, `0.8` when none is detected and there are more than five
tokens, `0.5` when none is detected and there are between one and five
tokens, and `0` when there are no tokens at all (in particular for
empty input text). -/
theorem confidence_formula (prof : Profile) (text : String) :
    (scan_text prof text).confidence =
      (if 0 < (scan_text prof text).detected_allergens.length then
        min (6/10 + (((scan_text prof text).detected_allergens.length : ℚ) /
          ((scan_text prof text).ingredients.length : ℚ)) * (4/10)) 1
      else if (scan_text prof text).ingredients.length = 0 then 0
      else if 5 < (scan_text prof text).ingredients.length then 8/10 else 5/10) := by
  have key : ∀ ings : List String,
      calculate_confidence (ings.foldl addDetected []) ings =
        (if 0 < (ings.foldl addDetected []).length then
          min (6/10 + (((ings.foldl addDetected []).length : ℚ) /
            (ings.length : ℚ)) * (4/10)) 1
        else if ings.length = 0 then 0
        else if 5 < ings.length then 8/10 else 5/10) := by
    intro ings
    cases ings with
    | nil => simp [calculate_confidence]
    | cons x xs =>
      simp only [calculate_confidence, List.isEmpty_cons, Bool.false_eq_true, if_false]
      by_cases hd : 0 < ((x :: xs).foldl addDetected []).length
      · rw [if_pos hd, if_pos hd]
      · rw [if_neg hd, if_neg hd]
        have hz : ¬(x :: xs).length = 0 := by simp
        by_cases h5 : 5 < (x :: xs).length
        · rw [if_pos h5, if_neg hz, min_eq_left (by norm_num)]
        · rw [if_neg h5, if_neg hz, min_eq_left (by norm_num)]
  exact key (extract_ingredients text)

/-- C5: evaluation at the failing input for the claim that the
boilerplate phrases leave no residue and that "may contain: X" extracts
like "X": the `contains?[:：]` pattern is applied before the
`may contain[:：]` pattern and consumes the "contain:" inside
"may contain:", leaving the token "may peanuts" instead of "peanuts". -/
theorem clean_text_leaves_residue :
    extract_ingredients "may contain: peanuts" = ["may peanuts"] ∧
    extract_ingredients "peanuts" = ["peanuts"] := by
  decide

/-- C6: for every input text and profile, the scan result satisfies
`safe = (risk_level = LOW and detected_allergens = [])`. -/
theorem safe_iff_low_and_none (prof : Profile) (text : String) :
    (scan_text prof text).safe = true ↔
      ((scan_text prof text).risk_level = RiskLevel.LOW ∧
        (scan_text prof text).detected_allergens = []) := by
  simp [scan_text, analyze_ingredients, Bool.and_eq_true, beq_iff_eq, List.isEmpty_iff]

/-- C7: `generate_warnings` emits exactly one message per detected
allergen whose category is in the profile (tiered by `warnMsg`: severe
when both severities are at least 4, caution when either is at least 3,
mild otherwise), emits nothing for unprofiled entries, and hence has
exactly as many entries as there are profiled detected allergens. -/
theorem generate_warnings_one_per_profiled (prof : Profile) (detected : List DetectedAllergen) :
    generate_warnings prof detected =
      detected.filterMap (fun a => (List.lookup a.type prof).map (fun u => warnMsg u a)) ∧
    (generate_warnings prof detected).length =
      (detected.filter (fun a => (List.lookup a.type prof).isSome)).length := by
  refine ⟨generate_warnings_filterMap prof detected, ?_⟩
  rw [generate_warnings_filterMap prof detected,
    length_filterMap_eq_length_filter
      (fun a => (List.lookup a.type prof).map fun u => warnMsg u a) detected]
  have hsame :
      (detected.filter fun a =>
          ((List.lookup a.type prof).map fun u => warnMsg u a).isSome) =
        detected.filter fun a => (List.lookup a.type prof).isSome := by
    apply List.filter_congr
    intro a _
    cases List.lookup a.type prof <;> rfl
  rw [hsame]

/-- C8: every scan's detected list has pairwise-distinct categories;
every entry records the token that triggered it (the token occurs among
the extracted ingredients and searching it returns a record with the
entry's name, category and severity); and scanning additional tokens
only appends to the list, so earlier (first-match) entries are never
displaced. -/
theorem detected_dedup_and_provenance (prof : Profile) (ings : List String) :
    ((analyze_ingredients prof ings).detected_allergens.map DetectedAllergen.type).Nodup ∧
    ((analyze_ingredients prof ings).detected_allergens.all fun a =>
      (analyze_ingredients prof ings).ingredients.contains a.matched_ingredient &&
        (search_allergens a.matched_ingredient).any fun rcd =>
          a.name == rcd.name && a.type == rcd.type && a.severity == rcd.severity) = true ∧
    ∀ more : List String,
      (analyze_ingredients prof ings).detected_allergens <+:
        (analyze_ingredients prof (ings ++ more)).detected_allergens := by
  refine ⟨?_, ?_, ?_⟩
  · exact detect_fold_nodup ings [] (by simp)
  · rw [List.all_eq_true]
    intro a ha
    rcases detect_fold_mem ings [] a ha with h | ⟨ing, hing, r, hr, he⟩
    · exact absurd h (List.not_mem_nil a)
    · subst he
      simp only [Bool.and_eq_true, List.any_eq_true, beq_iff_eq]
      constructor
      · show List.elem ing ings = true
        exact List.elem_iff.mpr hing
      · exact ⟨r, hr, by simp⟩
  · intro more
    show (ings.foldl addDetected []) <+: ((ings ++ more).foldl addDetected [])
    rw [List.foldl_append]
    exact detect_fold_isPre more (ings.foldl addDetected [])

/-- C9: every token returned by `extract_ingredients` has length
strictly greater than one and is not a stop word. -/
theorem extract_tokens_filtered (text tok : String) (h : tok ∈ extract_ingredients text) :
    1 < tok.length ∧ tok ∉ stop_words := by
  unfold extract_ingredients at h
  split at h
  · exact absurd h (List.not_mem_nil tok)
  · rw [List.mem_filterMap] at h
    obtain ⟨tk, _htk, hf⟩ := h
    dsimp only at hf
    split at hf
    · rename_i hcond
      rw [Option.some_inj] at hf
      subst hf
      exact ⟨hcond.2, cleanIngredient_not_stop tk hcond.1⟩
    · exact absurd hf (by simp)

/-- C9 witness: the token guarantee instantiated on the concrete text
"peanuts", whose extraction returns the token "peanuts". -/
theorem extract_tokens_filtered_witness :
    1 < ("peanuts" : String).length ∧ ("peanuts" : String) ∉ stop_words :=
  extract_tokens_filtered "peanuts" "peanuts" (by decide)

/-- C10: with an empty profile every scan assesses `LOW` and warns
nothing, while `safe` is false exactly when something was detected; the
concrete scan of "peanuts" with an empty profile is simultaneously
LOW-risk, warning-free and not safe. -/
theorem empty_profile_scan (text : String) :
    (scan_text [] text).risk_level = RiskLevel.LOW ∧
    (scan_text [] text).warnings = [] ∧
    ((scan_text [] text).safe = false ↔
      (scan_text [] text).detected_allergens.isEmpty = false) ∧
    (scan_text [] "peanuts").risk_level = RiskLevel.LOW ∧
    (scan_text [] "peanuts").warnings = [] ∧
    (scan_text [] "peanuts").detected_allergens.length = 1 ∧
    (scan_text [] "peanuts").safe = false := by
  refine ⟨?_, ?_, ?_, by decide, by decide, by decide, by decide⟩
  · exact assess_risk_empty_profile _
  · exact generate_warnings_empty_profile _
  · show ((assess_risk [] ((extract_ingredients text).foldl addDetected []) ==
        RiskLevel.LOW) && ((extract_ingredients text).foldl addDetected []).isEmpty) = false ↔
      ((extract_ingredients text).foldl addDetected []).isEmpty = false
    rw [assess_risk_empty_profile,
      show (RiskLevel.LOW == RiskLevel.LOW) = true from rfl, Bool.true_and]
